import Mathlib

/-!
Shallow embedding of the image-ingestion service (Flask + PostgreSQL + S3/MinIO).

Source files embedded:
  * `src/app/app.py` — `allowed_file`, `calculate_md5`, `validate_image`, `upload_image`;
  * `src/app/db.py` — `check_image_exists`, `save_image_metadata` (connection-pool discipline);
  * `src/app/s3_utils.py` — `_ensure_bucket_exists`, `upload_file`, `get_file_url`.

External collaborators (PIL, hashlib, werkzeug, psycopg2/PostgreSQL, boto3/S3)
are modelled as oracle parameters: their per-call outcomes are inputs to the
embedded functions, while the repository's own control flow is translated
faithfully, branch by branch.  Byte streams are modelled as a list of bytes
plus an explicit read position, mirroring Python file objects with `seek`,
`read` and `tell`.
-/

/-- A Python file-like object: its full byte content and the current read
position (`tell`). Bytes are `Nat` values. -/
structure ByteStream where
  content : List Nat
  pos : Nat
deriving DecidableEq, Repr

/-- `file_obj.seek(p)`. -/
def seekStream (s : ByteStream) (p : Nat) : ByteStream :=
  { s with pos := p }

/-- `ALLOWED_EXTENSIONS = {'png', 'jpg', 'jpeg', 'gif', 'bmp', 'webp'}` from `app.py`. -/
def ALLOWED_EXTENSIONS : List String := ["png", "jpg", "jpeg", "gif", "bmp", "webp"]

/-- `filename.rsplit('.', 1)[1]`: the characters after the last dot. -/
def afterLastDot (cs : List Char) : List Char :=
  (cs.reverse.takeWhile (fun c => c ≠ '.')).reverse

/-- `allowed_file` from `app.py`: the filename contains a dot and the text
after the last dot, lower-cased, is an allowed extension
(`filename.rsplit('.', 1)[1].lower() in ALLOWED_EXTENSIONS`). -/
def allowed_file (filename : String) : Bool :=
  filename.toList.contains '.' &&
    ALLOWED_EXTENSIONS.contains
      (String.mk ((afterLastDot filename.toList).map Char.toLower))

/-- The read loop of `calculate_md5`: `for chunk in iter(lambda: file_obj.read(4096), b"")`.
Each iteration reads at most 4096 bytes from the current position and appends
them to the accumulated buffer fed to the hash (`hash_md5.update(chunk)`).
The fuel argument is structural bookkeeping only; the caller supplies enough
fuel for the loop to run to the natural end of the stream. -/
def md5Loop (s : ByteStream) (acc : List Nat) : Nat → List Nat × ByteStream
  | 0 => (acc, s)
  | fuel + 1 =>
    let chunk := (s.content.drop s.pos).take 4096
    if chunk = [] then (acc, s)
    else md5Loop ⟨s.content, s.pos + chunk.length⟩ (acc ++ chunk) fuel

/-- `calculate_md5` from `app.py`: seek to 0, stream 4096-byte chunks into the
hash, seek back to 0, return the hex digest.  `digest` models
`hashlib.md5(...).hexdigest()` applied to the full sequence of bytes that were
fed through `update` (hashlib's streaming contract). -/
def calculate_md5 (digest : List Nat → String) (s : ByteStream) : String × ByteStream :=
  let s0 := seekStream s 0
  let r := md5Loop s0 [] (s0.content.length + 1)
  (digest r.1, seekStream r.2 0)

/-- `validate_image` from `app.py`.  `parse` models
`PIL.Image.open(file_obj); img.verify()` reading from position 0:
`Except.ok ()` means the structural verification succeeded; `Except.error k`
means it raised after consuming `k` bytes of the stream.  On success the code
executes the second `file_obj.seek(0)`; on the exception path that seek is
skipped and control jumps to the `except` block, leaving the position where
the parser stopped. -/
def validate_image (parse : List Nat → Except Nat Unit) (s : ByteStream) : Bool × ByteStream :=
  let s0 := seekStream s 0
  match parse s0.content with
  | .ok _ => (true, seekStream s0 0)
  | .error consumed => (false, { s0 with pos := min consumed s0.content.length })

/-! ## Metadata repository (`src/app/db.py`) -/

/-- A row of the `images` table, the columns named in the `INSERT` statement of
`save_image_metadata`. -/
structure ImageRow where
  id : String
  s3_key : String
  md5_hash : String
  original_filename : String
  mimetype : String
  filesize : Nat
  uploaded_at : String
  title : String
  description : String
  gemini_analysis : Option String
deriving DecidableEq, Repr

/-- The `images` table. -/
abbrev Database := List ImageRow

/-- The dictionary returned by `check_image_exists` when a row matches. -/
structure ExistingImage where
  id : String
  s3_key : String
  title : String
  description : String
deriving DecidableEq, Repr

/-- The dictionary returned by `save_image_metadata`, plus the `download_url`
key that `upload_image` adds afterwards. -/
structure SavedMeta where
  id : String
  s3_key : String
  md5_hash : String
  original_filename : String
  mimetype : String
  filesize : Nat
  uploaded_at : String
  title : String
  description : String
  gemini_analysis : Option String
  download_url : Option String
deriving DecidableEq, Repr

/-- Errors raised by the PostgreSQL driver, as far as the code distinguishes
outcomes: a uniqueness-constraint violation versus anything else. -/
inductive PgError where
  | uniqueViolation
  | otherError
deriving DecidableEq, Repr

/-- Per-call outcomes of the psycopg2 primitives used by one unit of work:
whether `get_connection()` succeeds, whether the SELECT round-trip
(`execute` + `fetchone`) raises, whether the INSERT round-trip raises, and
whether `commit` succeeds. -/
structure DbOracle where
  getconnOk : Bool
  selectExec : Option PgError
  insertExec : Option PgError
  commitOk : Bool
deriving DecidableEq, Repr

/-- Connection-pool events: `getconn` models `self.get_connection()`,
`putconn` models `self.put_connection(conn)`. -/
inductive ConnEvent where
  | getconn
  | putconn
deriving DecidableEq, BEq, Repr

/-- The parameterized `SELECT id, s3_key, title, description FROM images WHERE
md5_hash = %s` of `check_image_exists`. -/
def findByHash (db : Database) (md5_hash : String) : Option ImageRow :=
  db.find? (fun r => r.md5_hash = md5_hash)

/-- `check_image_exists` from `db.py`.  Returns the result (or the raised
error) together with the list of pool events that occurred.  `conn` starts as
`None`; the `finally` block returns the connection to the pool only when one
was acquired, on every exit path. -/
def check_image_exists (o : DbOracle) (db : Database) (md5_hash : String) :
    Except PgError (Option ExistingImage) × List ConnEvent :=
  if o.getconnOk then
    match o.selectExec with
    | some e => (.error e, [ConnEvent.getconn, ConnEvent.putconn])
    | none =>
      match findByHash db md5_hash with
      | some r => (.ok (some ⟨r.id, r.s3_key, r.title, r.description⟩),
                   [ConnEvent.getconn, ConnEvent.putconn])
      | none => (.ok none, [ConnEvent.getconn, ConnEvent.putconn])
  else (.error PgError.otherError, [])

/-- `save_image_metadata` from `db.py`.  `image_id` is the value of
`str(uuid.uuid4())` and `uploaded_at` the value of
`datetime.utcnow()` (already rendered as its isoformat string), both computed
by the application inside the function and placed into the `INSERT`'s
parameter tuple; `RETURNING id` therefore yields `image_id` back.  On any
raised error the transaction is rolled back (the table is unchanged) and the
error propagates; the `finally` block returns the connection whenever one was
acquired. -/
def save_image_metadata (o : DbOracle) (image_id uploaded_at : String)
    (s3_key md5_hash original_filename mimetype : String) (filesize : Nat)
    (title description : String) (gemini_analysis : Option String) (db : Database) :
    Except PgError SavedMeta × Database × List ConnEvent :=
  if o.getconnOk then
    match o.insertExec with
    | some e => (.error e, db, [ConnEvent.getconn, ConnEvent.putconn])
    | none =>
      if o.commitOk then
        (.ok ⟨image_id, s3_key, md5_hash, original_filename, mimetype, filesize,
              uploaded_at, title, description, gemini_analysis, none⟩,
         db ++ [⟨image_id, s3_key, md5_hash, original_filename, mimetype, filesize,
                 uploaded_at, title, description, gemini_analysis⟩],
         [ConnEvent.getconn, ConnEvent.putconn])
      else (.error PgError.otherError, db, [ConnEvent.getconn, ConnEvent.putconn])
  else (.error PgError.otherError, db, [])

/-! ## Object store gateway (`src/app/s3_utils.py`) -/

/-- One stored object: key, bytes, content type and the fixed
`Metadata: uploaded_by` tag written by `upload_file`. -/
structure S3Object where
  key : String
  data : List Nat
  contentType : String
  uploadedBy : String
deriving DecidableEq, Repr

/-- `upload_file` from `s3_utils.py`: `upload_fileobj` streams the file from
its current position to the end; on any error nothing is written and the
error propagates. -/
def upload_file (ok : Bool) (s3 : List S3Object) (file : ByteStream)
    (s3_key : String) (content_type : String) :
    Except Unit Unit × List S3Object × ByteStream :=
  if ok then
    (.ok (), s3 ++ [⟨s3_key, file.content.drop file.pos, content_type, "image_api"⟩],
     ⟨file.content, file.content.length⟩)
  else (.error (), s3, file)

/-- `get_file_url` from `s3_utils.py`: `def get_file_url(self, s3_key,
expiration=3600)` — the expiration parameter defaults to 3600 seconds.
`presign` models `generate_presigned_url('get_object', ..., ExpiresIn=expiration)`. -/
def get_file_url (presign : String → Nat → Except Unit String) (s3_key : String)
    (expiration : Nat := 3600) : Except Unit String :=
  presign s3_key expiration

/-- Outcome of one `head_bucket` call. `err404` is a `ClientError` whose code
is 404; `errOther` is a `ClientError` with any other code. -/
inductive HeadResult where
  | ok
  | err404
  | errOther
deriving DecidableEq, Repr

/-- Outcome of one `create_bucket` call. `alreadyExists` covers the codes
`BucketAlreadyExists` and `BucketAlreadyOwnedByYou`. -/
inductive CreateResult where
  | ok
  | alreadyExists
  | errOther
deriving DecidableEq, Repr

/-- What the storage backend answers on a given loop iteration. -/
structure AttemptBehavior where
  head : HeadResult
  create : CreateResult
deriving DecidableEq, Repr

/-- Observable storage-gateway actions taken during bucket provisioning. -/
inductive S3Event where
  | headCall
  | createCall
  | sleep (d : Nat)
deriving DecidableEq, BEq, Repr

/-- The body of `_ensure_bucket_exists`'s `for attempt in range(max_retries)`
loop, with `max_retries = 5`.  `remaining` counts loop iterations left,
`attempt` is the Python loop index, `retry_delay` the current backoff delay.
Per iteration: `head_bucket` succeeds → return; 404 → `create_bucket`; create
succeeds or reports already-exists → return; any other create error → if
`attempt < max_retries - 1`, `time.sleep(retry_delay)`, `retry_delay *= 2` and
continue, else re-raise; a non-404 head error re-raises immediately.
Falling off the loop returns `None` (success) as in Python. -/
def ensureLoop (behave : Nat → AttemptBehavior) :
    Nat → Nat → Nat → Except Unit Unit × List S3Event
  | 0, _, _ => (.ok (), [])
  | remaining + 1, attempt, retry_delay =>
    match (behave attempt).head with
    | HeadResult.ok => (.ok (), [S3Event.headCall])
    | HeadResult.errOther => (.error (), [S3Event.headCall])
    | HeadResult.err404 =>
      match (behave attempt).create with
      | CreateResult.ok => (.ok (), [S3Event.headCall, S3Event.createCall])
      | CreateResult.alreadyExists => (.ok (), [S3Event.headCall, S3Event.createCall])
      | CreateResult.errOther =>
        if attempt < 4 then
          let rest := ensureLoop behave remaining (attempt + 1) (retry_delay * 2)
          (rest.1, S3Event.headCall :: S3Event.createCall :: S3Event.sleep retry_delay :: rest.2)
        else (.error (), [S3Event.headCall, S3Event.createCall])

/-- `_ensure_bucket_exists` from `s3_utils.py`: `max_retries = 5`,
`retry_delay = 1`, then the loop above starting at attempt 0. -/
def ensure_bucket_exists (behave : Nat → AttemptBehavior) :
    Except Unit Unit × List S3Event :=
  ensureLoop behave 5 0 1

/-- The delays recorded in an event list. -/
def sleepDelays (evs : List S3Event) : List Nat :=
  evs.filterMap (fun e => match e with | S3Event.sleep d => some d | _ => none)

/-- `[d, 2*d, 4*d, ...]` of the given length. -/
def doublings (d : Nat) : Nat → List Nat
  | 0 => []
  | k + 1 => d :: doublings (d * 2) k

/-- Recognizes a `create_bucket` call among the provisioning events. -/
def isCreate : S3Event → Bool
  | S3Event.createCall => true
  | _ => false

/-- How many `create_bucket` calls an event list records. -/
def createCalls (evs : List S3Event) : Nat :=
  (evs.filter isCreate).length

/-! ## Ingestion orchestrator (`upload_image` in `src/app/app.py`) -/

/-- Parsed form of the JSON metadata dictionary (only string values are ever
read by the code). -/
abbrev Metadata := List (String × String)

/-- The HTTP request as `upload_image` sees it: presence of the `image_file`
part, its filename, declared content type and byte stream; presence of the
`metadata` form field and the result of `json.loads` on it (`none` models a
`JSONDecodeError`). -/
structure UploadRequest where
  has_image_file : Bool
  filename : String
  content_type : Option String
  file : ByteStream
  has_metadata : Bool
  metadata_json : Option Metadata

/-- Per-request outcomes of all external collaborators consulted by
`upload_image`: the PIL verifier, the hashlib digest, werkzeug's
`secure_filename`, the (already exception-suppressed) Gemini annotation
result, the database oracles for the SELECT and the INSERT units of work, the
S3 upload outcome, the presigner, and the values produced by `uuid.uuid4()`
and `datetime.utcnow()` inside `save_image_metadata`. -/
structure Oracles where
  parse : List Nat → Except Nat Unit
  digest : List Nat → String
  secure : String → String
  gemini : Option String
  dbSelect : DbOracle
  dbInsert : DbOracle
  s3UploadOk : Bool
  presign : String → Nat → Except Unit String
  uuid : String
  now : String

/-- The externally visible persistent state: the `images` table and the
objects in the bucket. -/
structure WorldState where
  db : Database
  s3 : List S3Object
deriving DecidableEq, Repr

/-- The JSON responses `upload_image` can produce, by HTTP status:
400 (`clientError`), 409 (`conflict`, carrying the existing record's public
fields), 500 (`serverError`, from the catch-all handler), 201 (`success`). -/
inductive UploadResult where
  | clientError (error msg : String)
  | conflict (error msg : String) (existing : ExistingImage)
  | serverError
  | success (data : SavedMeta)
deriving DecidableEq, Repr

/-- The HTTP status code of each outcome. -/
def statusCode : UploadResult → Nat
  | .clientError _ _ => 400
  | .conflict _ _ _ => 409
  | .serverError => 500
  | .success _ => 201

/-- `file.content_type or 'application/octet-stream'`: Python's `or` falls
through on `None` and on the empty string alike. -/
def orDefaultMime (ct : Option String) : String :=
  match ct with
  | none => "application/octet-stream"
  | some t => if t = "" then "application/octet-stream" else t

/-- `upload_image` from `app.py`, translated branch by branch: request-shape
checks, extension check, image validation, JSON parse, required-field check
(`'title' not in metadata or 'description' not in metadata`), file size via
`seek(0, 2)`/`tell()`/`seek(0)`, MD5, dedup lookup, Gemini annotation, S3 key
derivation `images/<md5>_<filename>`, object write, metadata insert, and the
best-effort presigned URL.  Any exception raised by the database or the
storage write reaches the outer `except` and becomes the opaque 500 answer. -/
def upload_image (o : Oracles) (req : UploadRequest) (w : WorldState) :
    UploadResult × WorldState :=
  if req.has_image_file = false then
    (.clientError "No image file provided"
      "Please provide an image file with key \"image_file\"", w)
  else if req.has_metadata = false then
    (.clientError "No metadata provided"
      "Please provide metadata as JSON string with key \"metadata\"", w)
  else if req.filename = "" then
    (.clientError "No file selected" "Please select a file to upload", w)
  else if allowed_file req.filename = false then
    (.clientError "Invalid file type"
      ("Allowed file types: " ++ String.intercalate ", " ALLOWED_EXTENSIONS), w)
  else
    match validate_image o.parse req.file with
    | (false, _) =>
      (.clientError "Invalid image file" "The uploaded file is not a valid image", w)
    | (true, file1) =>
      match req.metadata_json with
      | none => (.clientError "Invalid metadata format" "Metadata must be valid JSON", w)
      | some metadata =>
        match metadata.lookup "title", metadata.lookup "description" with
        | some title, some description =>
          match calculate_md5 o.digest (seekStream (seekStream file1 file1.content.length) 0) with
          | (md5_hash, file3) =>
            match (check_image_exists o.dbSelect w.db md5_hash).1 with
            | .error _ => (.serverError, w)
            | .ok (some existing) =>
              (.conflict "Image already exists"
                "An image with the same content already exists" existing, w)
            | .ok none =>
              match upload_file o.s3UploadOk w.s3 file3
                  ("images/" ++ md5_hash ++ "_" ++ o.secure req.filename)
                  (orDefaultMime req.content_type) with
              | (.error _, _, _) => (.serverError, w)
              | (.ok _, s3After, _) =>
                match save_image_metadata o.dbInsert o.uuid o.now
                    ("images/" ++ md5_hash ++ "_" ++ o.secure req.filename)
                    md5_hash (o.secure req.filename) (orDefaultMime req.content_type)
                    (seekStream file1 file1.content.length).pos
                    title description o.gemini w.db with
                | (.error _, dbAfter, _) => (.serverError, ⟨dbAfter, s3After⟩)
                | (.ok saved, dbAfter, _) =>
                  match get_file_url o.presign
                      ("images/" ++ md5_hash ++ "_" ++ o.secure req.filename) with
                  | .ok url =>
                    (.success { saved with download_url := some url }, ⟨dbAfter, s3After⟩)
                  | .error _ => (.success saved, ⟨dbAfter, s3After⟩)
        | _, _ =>
          (.clientError "Missing required metadata"
            "Metadata must contain \"title\" and \"description\"", w)

/-! ## Concrete fixtures used to evaluate the model on closed inputs -/

/-- A database oracle on which every primitive succeeds. -/
def okDbOracle : DbOracle := ⟨true, none, none, true⟩

/-- A storage backend whose `head_bucket` always answers 404 and whose
`create_bucket` always fails with an error other than already-exists. -/
def badBehave : Nat → AttemptBehavior :=
  fun _ => ⟨HeadResult.err404, CreateResult.errOther⟩

/-- Oracles on which every collaborator succeeds: the image parses, the
digest is a fixed function of the content, the annotation is absent, both
database units of work succeed, the object write succeeds and the presigner
answers. -/
def okOracles : Oracles where
  parse := fun _ => .ok ()
  digest := fun bs => "md5-" ++ toString bs.length
  secure := fun s => s
  gemini := none
  dbSelect := okDbOracle
  dbInsert := okDbOracle
  s3UploadOk := true
  presign := fun key e => .ok ("http://minio/" ++ key ++ "?expires=" ++ toString e)
  uuid := "9f1c2d74-0000-4000-8000-000000000001"
  now := "2024-01-01T00:00:00"

/-- A well-formed request: a three-byte png with title and description. -/
def okRequest : UploadRequest where
  has_image_file := true
  filename := "photo.png"
  content_type := some "image/png"
  file := ⟨[7, 8, 9], 0⟩
  has_metadata := true
  metadata_json := some [("title", "T"), ("description", "D")]

/-- A request identical to `okRequest` except that the metadata carries the
`title` and `description` keys with empty-string values. -/
def emptyFieldsRequest : UploadRequest where
  has_image_file := true
  filename := "photo.png"
  content_type := some "image/png"
  file := ⟨[7, 8, 9], 0⟩
  has_metadata := true
  metadata_json := some [("title", ""), ("description", "")]

/-- A pre-existing row whose fingerprint matches the digest of
`okRequest`'s content under `okOracles`. -/
def dupRow : ImageRow :=
  ⟨"id-0", "images/md5-3_photo.png", "md5-3", "photo.png", "image/png", 3,
   "2023-12-31T00:00:00", "T0", "D0", none⟩

/-- The record produced by a fully successful run of `upload_image` on
`okOracles`, `okRequest` and an empty world. -/
def successMeta : SavedMeta :=
  ⟨"9f1c2d74-0000-4000-8000-000000000001", "images/md5-3_photo.png", "md5-3",
   "photo.png", "image/png", 3, "2024-01-01T00:00:00", "T", "D", none,
   some "http://minio/images/md5-3_photo.png?expires=3600"⟩

/-! ## Helper lemmas about the stream primitives -/

lemma drop_length_take (n : Nat) (m : List Nat) : m.drop (m.take n).length = m.drop n := by
  rw [List.length_take]
  rcases Nat.le_total n m.length with h | h
  · rw [Nat.min_eq_left h]
  · rw [Nat.min_eq_right h, List.drop_length, List.drop_eq_nil_of_le h]

lemma md5Loop_spec : ∀ (fuel : Nat) (s : ByteStream) (acc : List Nat),
    s.pos ≤ s.content.length → s.content.length - s.pos < fuel →
    md5Loop s acc fuel = (acc ++ s.content.drop s.pos, ⟨s.content, s.content.length⟩) := by
  intro fuel
  induction fuel with
  | zero => intro s acc _ hf; exact absurd hf (Nat.not_lt_zero _)
  | succ n ih =>
    intro s acc hpos hf
    cases s with
    | mk content pos =>
      dsimp only at hpos hf
      simp only [md5Loop]
      by_cases hnil : content.drop pos = []
      · have hlen : content.length ≤ pos := List.drop_eq_nil_iff.mp hnil
        have hpe : pos = content.length := Nat.le_antisymm hpos hlen
        simp [hnil, hpe]
      · have hchunk : (content.drop pos).take 4096 ≠ [] := by
          intro hc
          rcases List.take_eq_nil_iff.mp hc with h | h
          · exact absurd h (by decide)
          · exact hnil h
        simp only [if_neg hchunk]
        have hclen : ((content.drop pos).take 4096).length = min 4096 (content.length - pos) := by
          rw [List.length_take, List.length_drop]
        have hpos' : pos + ((content.drop pos).take 4096).length ≤ content.length := by
          rw [hclen]; omega
        have hne : 0 < ((content.drop pos).take 4096).length :=
          List.length_pos.mpr hchunk
        have hf' : content.length - (pos + ((content.drop pos).take 4096).length) < n := by
          omega
        rw [ih ⟨content, pos + ((content.drop pos).take 4096).length⟩ _ hpos' hf']
        simp only [List.append_assoc, Prod.mk.injEq, and_true, List.append_cancel_left_eq]
        rw [← List.drop_drop, drop_length_take, List.take_append_drop]

lemma calculate_md5_eq (g : List Nat → String) (s : ByteStream) :
    calculate_md5 g s = (g s.content, ⟨s.content, 0⟩) := by
  cases s with
  | mk content pos =>
    simp only [calculate_md5, seekStream]
    rw [md5Loop_spec (content.length + 1) ⟨content, 0⟩ [] (Nat.zero_le _) (by dsimp only; omega)]
    simp

lemma validate_image_ok (p : List Nat → Except Nat Unit) (s : ByteStream)
    (h : p s.content = .ok ()) : validate_image p s = (true, ⟨s.content, 0⟩) := by
  cases s with
  | mk content pos => simp [validate_image, seekStream] at h ⊢; rw [h]

lemma validate_image_err (p : List Nat → Except Nat Unit) (s : ByteStream) (k : Nat)
    (h : p s.content = .error k) :
    validate_image p s = (false, ⟨s.content, min k s.content.length⟩) := by
  cases s with
  | mk content pos => simp [validate_image, seekStream] at h ⊢; rw [h]

/-! ## Claim theorems -/

/-- C8: for every byte stream, the fingerprint computed by the chunked
(4096-byte) streaming loop of `calculate_md5` equals the digest of the entire
content taken as a single buffer, and two byte-identical streams always yield
the identical fingerprint.  `g` models `hashlib.md5(...).hexdigest()` on the
accumulated update bytes. -/
theorem md5_chunked_equals_whole (g : List Nat → String) (s : ByteStream) :
    (calculate_md5 g s).1 = g s.content ∧
    ∀ s' : ByteStream, s'.content = s.content →
      (calculate_md5 g s').1 = (calculate_md5 g s).1 := by
  constructor
  · rw [calculate_md5_eq]
  · intro s' h
    rw [calculate_md5_eq, calculate_md5_eq, h]

theorem md5_chunked_equals_whole_witness :
    (calculate_md5 (fun bs => "md5-" ++ toString bs.length) ⟨[1, 2, 3], 2⟩).1 =
      "md5-" ++ toString ([1, 2, 3] : List Nat).length ∧
    (calculate_md5 (fun bs => "md5-" ++ toString bs.length) ⟨[1, 2, 3], 1⟩).1 =
      (calculate_md5 (fun bs => "md5-" ++ toString bs.length) ⟨[1, 2, 3], 2⟩).1 := by
  have h := md5_chunked_equals_whole (fun bs => "md5-" ++ toString bs.length) ⟨[1, 2, 3], 2⟩
  exact ⟨h.1, h.2 ⟨[1, 2, 3], 1⟩ rfl⟩

/-- C7 (amended): after hashing the stream is always back at position 0 with
its content intact, and after a validation that returns `valid` likewise; on
the invalid path the restoring seek is skipped, so the position is only
guaranteed for the valid outcome. -/
theorem stream_position_restored :
    (∀ (g : List Nat → String) (s : ByteStream),
        (calculate_md5 g s).2 = ⟨s.content, 0⟩) ∧
    (∀ (p : List Nat → Except Nat Unit) (s : ByteStream),
        (validate_image p s).1 = true → (validate_image p s).2 = ⟨s.content, 0⟩) := by
  constructor
  · intro g s; rw [calculate_md5_eq]
  · intro p s h
    cases hp : p s.content with
    | ok u => cases u; rw [validate_image_ok p s hp]
    | error k => rw [validate_image_err p s k hp] at h; simp at h

theorem stream_position_restored_witness :
    (calculate_md5 (fun _ => "d") ⟨[5, 6], 1⟩).2 = ⟨[5, 6], 0⟩ ∧
    (validate_image (fun _ => Except.ok ()) ⟨[5, 6], 1⟩).2 = ⟨[5, 6], 0⟩ :=
  ⟨stream_position_restored.1 (fun _ => "d") ⟨[5, 6], 1⟩,
   stream_position_restored.2 (fun _ => Except.ok ()) ⟨[5, 6], 1⟩ (by decide)⟩

/-- C7 (counterexample to the claim as stated): when the structural parse
raises after consuming 2 bytes, `validate_image` returns `invalid` with the
stream left at position 2, not restored to start-of-stream. -/
theorem validate_invalid_pos_not_restored_cex :
    validate_image (fun _ => Except.error 2) ⟨[9, 9, 9, 9], 0⟩ = (false, ⟨[9, 9, 9, 9], 2⟩) ∧
    (validate_image (fun _ => Except.error 2) ⟨[9, 9, 9, 9], 0⟩).2.pos ≠ 0 := by
  decide

/-- C9: in both metadata-repository operations, whenever a connection is
acquired it is released back to the pool exactly once, on every exit path
(normal return, raised select/insert/commit error); when acquisition itself
fails nothing is released.  The event list is exactly `[getconn, putconn]`
when acquisition succeeds and `[]` otherwise, for every oracle outcome. -/
theorem connection_release_balanced (o : DbOracle) (db : Database)
    (md5_hash image_id uploaded_at s3_key ofn mt : String) (fs : Nat)
    (t d : String) (g : Option String) :
    (check_image_exists o db md5_hash).2 =
      (if o.getconnOk then [ConnEvent.getconn, ConnEvent.putconn] else []) ∧
    (save_image_metadata o image_id uploaded_at s3_key md5_hash ofn mt fs t d g db).2.2 =
      (if o.getconnOk then [ConnEvent.getconn, ConnEvent.putconn] else []) := by
  rcases o with ⟨gc, se, ie, co⟩
  refine ⟨?_, ?_⟩
  · cases gc with
    | false => rfl
    | true =>
      cases se with
      | some e => rfl
      | none =>
        simp only [check_image_exists]
        cases findByHash db md5_hash <;> rfl
  · cases gc with
    | false => rfl
    | true =>
      cases ie with
      | some e => rfl
      | none => cases co <;> rfl

/-- C4 (amended): on a successful insert the stored row's identifier and
timestamp are exactly the values the application generated
(`str(uuid.uuid4())` and `datetime.utcnow()`) and passed in the `INSERT`
parameter tuple; the returned record echoes them back. -/
theorem save_uses_app_generated_id_time (o : DbOracle)
    (image_id uploaded_at s3_key md5_hash ofn mt : String) (fs : Nat)
    (t d : String) (g : Option String) (db : Database)
    (h1 : o.getconnOk = true) (h2 : o.insertExec = none) (h3 : o.commitOk = true) :
    save_image_metadata o image_id uploaded_at s3_key md5_hash ofn mt fs t d g db =
      (.ok ⟨image_id, s3_key, md5_hash, ofn, mt, fs, uploaded_at, t, d, g, none⟩,
       db ++ [⟨image_id, s3_key, md5_hash, ofn, mt, fs, uploaded_at, t, d, g⟩],
       [ConnEvent.getconn, ConnEvent.putconn]) := by
  simp [save_image_metadata, h1, h2, h3]

theorem save_uses_app_generated_id_time_witness :
    save_image_metadata okDbOracle "9f1c2d74-0000-4000-8000-000000000001"
        "2024-01-01T00:00:00" "k" "h" "f.png" "image/png" 3 "T" "D" none [] =
      (.ok ⟨"9f1c2d74-0000-4000-8000-000000000001", "k", "h", "f.png", "image/png", 3,
            "2024-01-01T00:00:00", "T", "D", none, none⟩,
       [⟨"9f1c2d74-0000-4000-8000-000000000001", "k", "h", "f.png", "image/png", 3,
         "2024-01-01T00:00:00", "T", "D", none⟩],
       [ConnEvent.getconn, ConnEvent.putconn]) := by
  have h := save_uses_app_generated_id_time okDbOracle
    "9f1c2d74-0000-4000-8000-000000000001" "2024-01-01T00:00:00"
    "k" "h" "f.png" "image/png" 3 "T" "D" none [] rfl rfl rfl
  simpa using h

/-- C4 (counterexample to the claim as stated): the identifier stored in the
relational table tracks the application-supplied value — two runs over the
same table state that differ only in the application-generated UUID insert
rows with different identifiers, so the identifier is not assigned by the
database server. -/
theorem save_id_app_supplied_cex :
    (save_image_metadata okDbOracle "id-A" "2024-01-01T00:00:00" "k" "h" "f.png"
        "image/png" 3 "T" "D" none []).2.1.map (fun r => r.id) = ["id-A"] ∧
    (save_image_metadata okDbOracle "id-B" "2024-01-01T00:00:00" "k" "h" "f.png"
        "image/png" 3 "T" "D" none []).2.1.map (fun r => r.id) = ["id-B"] ∧
    "id-A" ≠ "id-B" := by
  decide

/-- C5: when the existence check reports 404 and the create attempt fails
because the bucket already exists (raced by a peer), provisioning returns
success (READY) immediately: no exception, no sleep, a single head and a
single create call. -/
theorem bucket_create_already_exists_ready (behave : Nat → AttemptBehavior)
    (h : behave 0 = ⟨HeadResult.err404, CreateResult.alreadyExists⟩) :
    ensure_bucket_exists behave = (.ok (), [S3Event.headCall, S3Event.createCall]) := by
  simp [ensure_bucket_exists, ensureLoop, h]

theorem bucket_create_already_exists_ready_witness :
    ensure_bucket_exists (fun _ => ⟨HeadResult.err404, CreateResult.alreadyExists⟩) =
      (.ok (), [S3Event.headCall, S3Event.createCall]) :=
  bucket_create_already_exists_ready _ rfl

lemma ensureLoop_sleeps (behave : Nat → AttemptBehavior) :
    ∀ (r a d : Nat), ∃ k, sleepDelays (ensureLoop behave r a d).2 = doublings d k ∧
      (k = 0 ∨ a + k ≤ 4) := by
  intro r
  induction r with
  | zero => intro a d; exact ⟨0, rfl, Or.inl rfl⟩
  | succ n ih =>
    intro a d
    simp only [ensureLoop]
    cases hh : (behave a).head with
    | ok => exact ⟨0, by simp [sleepDelays, doublings], Or.inl rfl⟩
    | errOther => exact ⟨0, by simp [sleepDelays, doublings], Or.inl rfl⟩
    | err404 =>
      cases hc : (behave a).create with
      | ok => exact ⟨0, by simp [sleepDelays, doublings], Or.inl rfl⟩
      | alreadyExists => exact ⟨0, by simp [sleepDelays, doublings], Or.inl rfl⟩
      | errOther =>
        by_cases ha : a < 4
        · obtain ⟨k, hk, hb⟩ := ih (a + 1) (d * 2)
          refine ⟨k + 1, ?_, Or.inr ?_⟩
          · simp [ha, sleepDelays, doublings] at hk ⊢
            exact hk
          · rcases hb with hb | hb
            · omega
            · omega
        · exact ⟨0, by simp [ha, sleepDelays, doublings], Or.inl rfl⟩

lemma doublings_one_take (k : Nat) (hk : k ≤ 4) :
    doublings 1 k = List.take k [1, 2, 4, 8] := by
  interval_cases k <;> decide

lemma ensureLoop_creates (behave : Nat → AttemptBehavior) :
    ∀ (r a d : Nat), createCalls (ensureLoop behave r a d).2 ≤ r := by
  intro r
  induction r with
  | zero => intro a d; simp [ensureLoop, createCalls]
  | succ n ih =>
    intro a d
    simp only [ensureLoop]
    cases (behave a).head with
    | ok => simp [createCalls, isCreate]
    | errOther => simp [createCalls, isCreate]
    | err404 =>
      cases (behave a).create with
      | ok => simp [createCalls, isCreate]
      | alreadyExists => simp [createCalls, isCreate]
      | errOther =>
        by_cases ha : a < 4
        · have := ih (a + 1) (d * 2)
          simp only [ha, if_true, createCalls, isCreate, List.filter, List.length_cons] at this ⊢
          omega
        · simp [ha, createCalls, isCreate]

/-- C6: bucket provisioning always terminates with a bounded retry budget:
the recorded backoff delays are an initial segment of `[1, 2, 4, 8]`
(base delay 1, doubled each retry, at most 4 sleeps), no more than 5
`create_bucket` attempts are made, and when every attempt fails with a
non-already-exists create error the final attempt propagates the error
(terminal FAILED) instead of looping further. -/
theorem bucket_retry_bound_and_propagation (behave : Nat → AttemptBehavior) :
    (∃ k, k ≤ 4 ∧
      sleepDelays (ensure_bucket_exists behave).2 = List.take k [1, 2, 4, 8]) ∧
    createCalls (ensure_bucket_exists behave).2 ≤ 5 ∧
    ((∀ i, i < 5 → behave i = ⟨HeadResult.err404, CreateResult.errOther⟩) →
      (ensure_bucket_exists behave).1 = .error ()) := by
  refine ⟨?_, ?_, ?_⟩
  · obtain ⟨k, hk, hb⟩ := ensureLoop_sleeps behave 5 0 1
    have hk4 : k ≤ 4 := by rcases hb with hb | hb <;> omega
    exact ⟨k, hk4, by rw [ensure_bucket_exists, hk, doublings_one_take k hk4]⟩
  · exact ensureLoop_creates behave 5 0 1
  · intro h
    have h0 := h 0 (by omega)
    have h1 := h 1 (by omega)
    have h2 := h 2 (by omega)
    have h3 := h 3 (by omega)
    have h4 := h 4 (by omega)
    simp [ensure_bucket_exists, ensureLoop, h0, h1, h2, h3, h4]

theorem bucket_retry_bound_and_propagation_witness :
    (∃ k, k ≤ 4 ∧
      sleepDelays (ensure_bucket_exists badBehave).2 = List.take k [1, 2, 4, 8]) ∧
    createCalls (ensure_bucket_exists badBehave).2 ≤ 5 ∧
    (ensure_bucket_exists badBehave).1 = .error () := by
  have h := bucket_retry_bound_and_propagation badBehave
  exact ⟨h.1, h.2.1, h.2.2 (fun i _ => rfl)⟩

/-- C1: a request that passes validation and whose computed fingerprint
already has a row in the `images` table terminates in the 409 CONFLICT
outcome carrying the existing record's public fields (identifier, storage
key, title, description), and the world — blob store and database alike — is
returned unchanged: no object write and no insert happen. -/
theorem upload_duplicate_is_conflict_and_pure (o : Oracles) (req : UploadRequest)
    (w : WorldState) (r : ImageRow) (m : Metadata) (t d : String)
    (h1 : req.has_image_file = true) (h2 : req.has_metadata = true)
    (h3 : ¬ req.filename = "") (h4 : allowed_file req.filename = true)
    (h5 : o.parse req.file.content = .ok ())
    (h6 : req.metadata_json = some m)
    (h7 : m.lookup "title" = some t) (h8 : m.lookup "description" = some d)
    (h9 : o.dbSelect.getconnOk = true) (h10 : o.dbSelect.selectExec = none)
    (h11 : findByHash w.db (o.digest req.file.content) = some r) :
    upload_image o req w =
      (.conflict "Image already exists" "An image with the same content already exists"
        ⟨r.id, r.s3_key, r.title, r.description⟩, w) := by
  simp [upload_image, h1, h2, h3, h4, validate_image_ok o.parse req.file h5,
        h6, h7, h8, calculate_md5_eq, seekStream, check_image_exists, h9, h10, h11]

theorem upload_duplicate_is_conflict_and_pure_witness :
    upload_image okOracles okRequest ⟨[dupRow], []⟩ =
      (.conflict "Image already exists" "An image with the same content already exists"
        ⟨"id-0", "images/md5-3_photo.png", "T0", "D0"⟩, ⟨[dupRow], []⟩) := by
  have h := upload_duplicate_is_conflict_and_pure okOracles okRequest ⟨[dupRow], []⟩
    dupRow [("title", "T"), ("description", "D")] "T" "D"
    rfl rfl (by decide) (by decide) rfl rfl (by decide) (by decide) rfl rfl (by decide)
  simpa [dupRow] using h

/-- C3 (amended): when the dedup check passes but the metadata insert raises
— including a uniqueness-constraint violation caused by a concurrent
identical upload — the exception reaches the catch-all handler and the
request is answered with the opaque 500 server error, not with the 409
CONFLICT outcome. -/
theorem insert_failure_is_server_error (o : Oracles) (req : UploadRequest)
    (w : WorldState) (m : Metadata) (t d : String) (e : PgError)
    (h1 : req.has_image_file = true) (h2 : req.has_metadata = true)
    (h3 : ¬ req.filename = "") (h4 : allowed_file req.filename = true)
    (h5 : o.parse req.file.content = .ok ())
    (h6 : req.metadata_json = some m)
    (h7 : m.lookup "title" = some t) (h8 : m.lookup "description" = some d)
    (h9 : o.dbSelect.getconnOk = true) (h10 : o.dbSelect.selectExec = none)
    (h11 : findByHash w.db (o.digest req.file.content) = none)
    (h12 : o.s3UploadOk = true)
    (h13 : o.dbInsert.getconnOk = true) (h14 : o.dbInsert.insertExec = some e) :
    (upload_image o req w).1 = .serverError := by
  simp [upload_image, h1, h2, h3, h4, validate_image_ok o.parse req.file h5,
        h6, h7, h8, calculate_md5_eq, seekStream, check_image_exists, h9, h10, h11,
        upload_file, h12, save_image_metadata, h13, h14]

theorem insert_failure_is_server_error_witness :
    (upload_image
        { okOracles with dbInsert := ⟨true, none, some PgError.uniqueViolation, true⟩ }
        okRequest ⟨[], []⟩).1 = .serverError := by
  exact insert_failure_is_server_error
    { okOracles with dbInsert := ⟨true, none, some PgError.uniqueViolation, true⟩ }
    okRequest ⟨[], []⟩ [("title", "T"), ("description", "D")] "T" "D"
    PgError.uniqueViolation
    rfl rfl (by decide) (by decide) rfl rfl (by decide) (by decide) rfl rfl
    (by decide) rfl rfl rfl

/-- C3 (counterexample to the claim as stated): on a concrete request whose
dedup check passes and whose insert then raises a uniqueness-constraint
violation (the concurrent-duplicate race), the response is the 500 server
error — not the 409 duplicate/CONFLICT outcome the claim asserts. -/
theorem insert_unique_violation_not_conflict_cex :
    statusCode (upload_image
        { okOracles with dbInsert := ⟨true, none, some PgError.uniqueViolation, true⟩ }
        okRequest ⟨[], []⟩).1 = 500 ∧ (500 : Nat) ≠ 409 := by
  constructor
  · decide
  · decide

lemma upload_missing_fields_eval (o : Oracles) (req : UploadRequest)
    (w : WorldState) (m : Metadata)
    (h2 : req.has_metadata = true) (h6 : req.metadata_json = some m)
    (hm : m.lookup "title" = none ∨ m.lookup "description" = none) :
    upload_image o req w =
      (if req.has_image_file = false then
        (.clientError "No image file provided"
          "Please provide an image file with key \"image_file\"", w)
       else if req.filename = "" then
        (.clientError "No file selected" "Please select a file to upload", w)
       else if allowed_file req.filename = false then
        (.clientError "Invalid file type"
          ("Allowed file types: " ++ String.intercalate ", " ALLOWED_EXTENSIONS), w)
       else if (validate_image o.parse req.file).1 = false then
        (.clientError "Invalid image file" "The uploaded file is not a valid image", w)
       else
        (.clientError "Missing required metadata"
          "Metadata must contain \"title\" and \"description\"", w)) := by
  by_cases h1 : req.has_image_file = false
  · simp [upload_image, h1]
  · by_cases h3 : req.filename = ""
    · simp [upload_image, h1, h2, h3]
    · by_cases h4 : allowed_file req.filename = false
      · simp [upload_image, h1, h2, h3, h4]
      · cases hv : o.parse req.file.content with
        | error k =>
          simp [upload_image, h1, h2, h3, h4, validate_image_err o.parse req.file k hv]
        | ok u =>
          cases u
          rcases hm with hm | hm
          · simp [upload_image, h1, h2, h3, h4,
                  validate_image_ok o.parse req.file hv, h6, hm]
          · cases ht : m.lookup "title" with
            | none =>
              simp [upload_image, h1, h2, h3, h4,
                    validate_image_ok o.parse req.file hv, h6, ht]
            | some t =>
              simp [upload_image, h1, h2, h3, h4,
                    validate_image_ok o.parse req.file hv, h6, ht, hm]

/-- C2 (amended): a request whose parsed metadata lacks the `title` key or the
`description` key is rejected with a client-input (400) error and no side
effects — the database and blob store are returned unchanged — and the
rejection happens before fingerprinting: the outcome does not depend on the
digest oracle at all.  (The check is key-presence only; empty-string values
pass it, see the counterexample.) -/
theorem upload_missing_metadata_rejected (o : Oracles) (req : UploadRequest)
    (w : WorldState) (m : Metadata)
    (h2 : req.has_metadata = true) (h6 : req.metadata_json = some m)
    (hm : m.lookup "title" = none ∨ m.lookup "description" = none) :
    (∃ err msg, upload_image o req w = (.clientError err msg, w)) ∧
    ∀ g : List Nat → String,
      upload_image { o with digest := g } req w = upload_image o req w := by
  have hnf := upload_missing_fields_eval o req w m h2 h6 hm
  constructor
  · rw [hnf]
    repeat' split
    all_goals exact ⟨_, _, rfl⟩
  · intro g
    have hnf' := upload_missing_fields_eval { o with digest := g } req w m h2 h6 hm
    rw [hnf', hnf]

theorem upload_missing_metadata_rejected_witness :
    (∃ err msg, upload_image okOracles
        { okRequest with metadata_json := some [("title", "T")] } ⟨[], []⟩ =
      (.clientError err msg, (⟨[], []⟩ : WorldState))) ∧
    ∀ g : List Nat → String,
      upload_image { okOracles with digest := g }
          { okRequest with metadata_json := some [("title", "T")] } ⟨[], []⟩ =
        upload_image okOracles
          { okRequest with metadata_json := some [("title", "T")] } ⟨[], []⟩ :=
  upload_missing_metadata_rejected okOracles
    { okRequest with metadata_json := some [("title", "T")] } ⟨[], []⟩
    [("title", "T")] rfl rfl (Or.inr (by decide))

/-- C2 (counterexample to the claim as stated): a request whose metadata
carries `title` and `description` as EMPTY strings is not rejected — the
required-field check only tests key presence, so the upload proceeds through
fingerprinting to a 201 success, writing one object and one row. -/
theorem upload_empty_fields_accepted_cex :
    statusCode (upload_image okOracles emptyFieldsRequest ⟨[], []⟩).1 = 201 ∧
    (upload_image okOracles emptyFieldsRequest ⟨[], []⟩).2.db.length = 1 ∧
    (upload_image okOracles emptyFieldsRequest ⟨[], []⟩).2.s3.length = 1 := by
  refine ⟨by decide, by decide, by decide⟩

lemma save_ok_inv {o : DbOracle} {i u key md5 ofn mt : String} {fs : Nat}
    {t d : String} {g : Option String} {db : Database} {sm : SavedMeta}
    {db' : Database} {evs : List ConnEvent}
    (h : save_image_metadata o i u key md5 ofn mt fs t d g db = (.ok sm, db', evs)) :
    sm = ⟨i, key, md5, ofn, mt, fs, u, t, d, g, none⟩ := by
  rcases o with ⟨gc, se, ie, co⟩
  cases gc
  · simp [save_image_metadata] at h
  · cases ie with
    | some e => simp [save_image_metadata] at h
    | none =>
      cases co
      · simp [save_image_metadata] at h
      · simp [save_image_metadata] at h
        exact h.1.symm

/-- C10: whenever `upload_image` answers 201 with a record `d`, the
presigned URL attached to `d` is exactly the presigner's answer for `d`'s
storage key at expiration 3600 — `upload_image` passes no expiration argument
and `get_file_url` defaults its `expiration` parameter to 3600 seconds. -/
theorem download_url_expiration_3600 (o : Oracles) (req : UploadRequest)
    (w : WorldState) (d : SavedMeta)
    (h : (upload_image o req w).1 = .success d) :
    get_file_url o.presign d.s3_key = o.presign d.s3_key 3600 ∧
    d.download_url = (get_file_url o.presign d.s3_key).toOption := by
  refine ⟨rfl, ?_⟩
  unfold upload_image at h
  repeat' split at h
  all_goals try (dsimp only at h; exact UploadResult.noConfusion h)
  · rename_i hsave hx hu hurl
    dsimp only at h
    rw [UploadResult.success.injEq] at h
    subst h
    rw [save_ok_inv hsave]
    simp [hurl, Except.toOption]
  · rename_i hsave hx hu hurl
    dsimp only at h
    rw [UploadResult.success.injEq] at h
    subst h
    rw [save_ok_inv hsave]
    simp [hurl, Except.toOption]

theorem download_url_expiration_3600_witness :
    get_file_url okOracles.presign successMeta.s3_key =
      okOracles.presign successMeta.s3_key 3600 ∧
    successMeta.download_url =
      (get_file_url okOracles.presign successMeta.s3_key).toOption :=
  download_url_expiration_3600 okOracles okRequest ⟨[], []⟩ successMeta (by decide)
